import Mathlib

/-!
Verification of `src/larq/activations.py`.

The file defines three element-wise activation functions, `hard_tanh`,
`hard_sigmoid` and `leaky_tanh`, built from `tf.clip_by_value`,
`tf.math.maximum` and `tf.math.minimum`, plus two thin Keras layer
wrappers `HardTanh` and `HardSigmoid`.  We embed the scalar functions
over ℝ, tensors as a shape together with a flat list of entries, and the
tensor-level operations as element-wise maps, then prove the spec's
properties about them.
-/

/-- Model of `tf.clip_by_value(t, lo, hi)` on one scalar entry.  TensorFlow
computes `maximum(minimum(t, clip_value_max), clip_value_min)`. -/
def clip_by_value (x lo hi : ℝ) : ℝ := max (min x hi) lo

/-- Model of `hard_tanh(x, lower_b=-1.0, upper_b=1.0)` on one scalar entry:
`tf.clip_by_value(x, lower_b, upper_b)`.  The Python defaults are
`lower_b = -1.0`, `upper_b = 1.0`; here the bounds are always passed
explicitly. -/
def hard_tanh (x lower_b upper_b : ℝ) : ℝ := clip_by_value x lower_b upper_b

/-- Model of `hard_sigmoid(x)` on one scalar entry:
`tf.clip_by_value(x + 0.5, 0.0, 1.0)`. -/
def hard_sigmoid (x : ℝ) : ℝ := clip_by_value (x + 0.5) 0 1

/-- Model of `leaky_tanh(x, alpha=0.2)` on one scalar entry:
`tf.clip_by_value(x, -1, 1) + (tf.math.maximum(x, 1) - 1) * alpha
+ (tf.math.minimum(x, -1) + 1) * alpha`. -/
def leaky_tanh (x alpha : ℝ) : ℝ :=
  clip_by_value x (-1) 1 + (max x 1 - 1) * alpha + (min x (-1) + 1) * alpha

/-- A tensor: an n-dimensional array of reals, embedded as its shape together
with its entries in a flat row-major list. -/
structure Tensor where
  shape : List ℕ
  data : List ℝ

/-- The element-wise lifting of a scalar function to tensors, which is how
`tf.clip_by_value`, `tf.math.maximum` and `tf.math.minimum` act on a tensor
against scalar bounds: the shape is kept and each entry is transformed
independently. -/
def tensorMap (f : ℝ → ℝ) (t : Tensor) : Tensor :=
  ⟨t.shape, t.data.map f⟩

/-- `hard_tanh` applied to a whole tensor. -/
def hard_tanh_t (t : Tensor) (lower_b upper_b : ℝ) : Tensor :=
  tensorMap (fun x => hard_tanh x lower_b upper_b) t

/-- `hard_sigmoid` applied to a whole tensor. -/
def hard_sigmoid_t (t : Tensor) : Tensor :=
  tensorMap hard_sigmoid t

/-- `leaky_tanh` applied to a whole tensor. -/
def leaky_tanh_t (t : Tensor) (alpha : ℝ) : Tensor :=
  tensorMap (fun x => leaky_tanh x alpha) t

/-- Model of the `HardTanh` layer: it stores the constructor parameters
`lower_b` and `upper_b` (Python defaults `-1.0` and `1.0`). -/
structure HardTanh where
  lower_b : ℝ
  upper_b : ℝ

/-- `HardTanh.call(inputs)` forwards to
`hard_tanh(inputs, lower_b=self.lower_b, upper_b=self.upper_b)`. -/
def HardTanh.call (l : HardTanh) (inputs : Tensor) : Tensor :=
  hard_tanh_t inputs l.lower_b l.upper_b

/-- Modelled from the spec: the base `tf.keras.layers.Layer` class is not in
the repository; a layer that never calls `add_weight` owns no trainable
weights, and the spec states the wrappers own zero trainable parameters. -/
def HardTanh.trainable_weights (_ : HardTanh) : List ℝ := []

/-- The `non_trainable_weights` property of `HardTanh` returns `[]`. -/
def HardTanh.non_trainable_weights (_ : HardTanh) : List ℝ := []

/-- `HardTanh.compute_output_shape(input_shape)` returns `input_shape`. -/
def HardTanh.compute_output_shape (_ : HardTanh) (input_shape : List ℕ) : List ℕ :=
  input_shape

/-- Model of the `HardSigmoid` layer: it stores no parameters of its own. -/
structure HardSigmoid where

/-- `HardSigmoid.call(inputs)` forwards to `hard_sigmoid(inputs)`. -/
def HardSigmoid.call (_ : HardSigmoid) (inputs : Tensor) : Tensor :=
  hard_sigmoid_t inputs

/-- Modelled from the spec: the base `tf.keras.layers.Layer` class is not in
the repository; a layer that never calls `add_weight` owns no trainable
weights, and the spec states the wrappers own zero trainable parameters. -/
def HardSigmoid.trainable_weights (_ : HardSigmoid) : List ℝ := []

/-- The `non_trainable_weights` property of `HardSigmoid` returns `[]`. -/
def HardSigmoid.non_trainable_weights (_ : HardSigmoid) : List ℝ := []

/-- `HardSigmoid.compute_output_shape(input_shape)` returns `input_shape`. -/
def HardSigmoid.compute_output_shape (_ : HardSigmoid) (input_shape : List ℕ) : List ℕ :=
  input_shape

/-- Claim C1: `leaky_tanh` satisfies the piecewise characterization: it is the
identity on `[-1, 1]`, equals `1 + alpha * (x - 1)` for `x > 1`, and equals
`-1 + alpha * (x + 1)` for `x < -1`. -/
theorem leaky_tanh_piecewise (x alpha : ℝ) :
    (-1 ≤ x → x ≤ 1 → leaky_tanh x alpha = x) ∧
    (1 < x → leaky_tanh x alpha = 1 + alpha * (x - 1)) ∧
    (x < -1 → leaky_tanh x alpha = -1 + alpha * (x + 1)) := by
  refine ⟨?_, ?_, ?_⟩
  · intro h1 h2
    simp only [leaky_tanh, clip_by_value, min_eq_left h2, max_eq_left h1,
      max_eq_right h2, min_eq_right h1]
    ring
  · intro h
    have h1 : (1 : ℝ) ≤ x := le_of_lt h
    have h2 : (-1 : ℝ) ≤ x := by linarith
    simp only [leaky_tanh, clip_by_value, min_eq_right h1, max_eq_left h1,
      min_eq_right h2]
    rw [max_eq_left (by norm_num : (-1 : ℝ) ≤ 1)]
    ring
  · intro h
    have h1 : x ≤ (1 : ℝ) := by linarith
    have h2 : x ≤ (-1 : ℝ) := le_of_lt h
    simp only [leaky_tanh, clip_by_value, min_eq_left h1, max_eq_right h2,
      max_eq_right h1, min_eq_left h2]
    ring

/-- Witness for C1 at `x = 0`, `x = 2` and `x = -2` with `alpha = 0.2`. -/
theorem leaky_tanh_piecewise_witness :
    leaky_tanh 0 0.2 = 0 ∧
    leaky_tanh 2 0.2 = 1 + 0.2 * (2 - 1) ∧
    leaky_tanh (-2) 0.2 = -1 + 0.2 * ((-2) + 1) :=
  ⟨(leaky_tanh_piecewise 0 0.2).1 (by norm_num) (by norm_num),
   (leaky_tanh_piecewise 2 0.2).2.1 (by norm_num),
   (leaky_tanh_piecewise (-2) 0.2).2.2 (by norm_num)⟩

/-- Claim C2: `hard_tanh(x, lower_b, upper_b)` is `x` clamped into
`[lower_b, upper_b]`, i.e. `max(lower_b, min(x, upper_b))`; it is the
identity on `[lower_b, upper_b]`, and with the default bounds its value
lies in `[-1, 1]`. -/
theorem hard_tanh_clamp (x lower_b upper_b : ℝ) :
    hard_tanh x lower_b upper_b = max lower_b (min x upper_b) ∧
    (lower_b ≤ x → x ≤ upper_b → hard_tanh x lower_b upper_b = x) ∧
    (-1 ≤ hard_tanh x (-1) 1 ∧ hard_tanh x (-1) 1 ≤ 1) := by
  refine ⟨max_comm _ _, ?_, le_max_right _ _, max_le (min_le_right x 1) (by norm_num)⟩
  intro h1 h2
  simp only [hard_tanh, clip_by_value, min_eq_left h2, max_eq_left h1]

/-- Witness for C2 at `x = 0.3` with bounds `[-1, 1]`. -/
theorem hard_tanh_clamp_witness :
    hard_tanh 0.3 (-1) 1 = max (-1) (min 0.3 1) ∧
    hard_tanh 0.3 (-1) 1 = 0.3 ∧
    (-1 ≤ hard_tanh 0.3 (-1) 1 ∧ hard_tanh 0.3 (-1) 1 ≤ 1) :=
  ⟨(hard_tanh_clamp 0.3 (-1) 1).1,
   (hard_tanh_clamp 0.3 (-1) 1).2.1 (by norm_num) (by norm_num),
   (hard_tanh_clamp 0.3 (-1) 1).2.2⟩

/-- Claim C3: `hard_sigmoid(x)` equals `clamp(x + 0.5, 0, 1)`
(`max(0, min(x + 0.5, 1))`), its value lies in `[0, 1]`, and the anchors
`hard_sigmoid(-0.5) = 0`, `hard_sigmoid(0.5) = 1`, `hard_sigmoid(0) = 0.5`
hold. -/
theorem hard_sigmoid_clamp (x : ℝ) :
    hard_sigmoid x = max 0 (min (x + 0.5) 1) ∧
    (0 ≤ hard_sigmoid x ∧ hard_sigmoid x ≤ 1) ∧
    hard_sigmoid (-0.5) = 0 ∧ hard_sigmoid 0.5 = 1 ∧ hard_sigmoid 0 = 0.5 := by
  refine ⟨max_comm _ _, ⟨le_max_right _ _, max_le (min_le_right _ 1) (by norm_num)⟩,
    ?_, ?_, ?_⟩ <;>
  · simp only [hard_sigmoid, clip_by_value]
    norm_num

/-- Claim C4: each of the three tensor-level operations preserves the shape of
any input tensor unconditionally (so also for zero-element and scalar
tensors), and for every valid index `i` the output entry at index `i` is the
corresponding scalar function of the input entry at index `i` alone (the
input tensor is a value and is not mutated). -/
theorem tensor_elementwise (t : Tensor) (lower_b upper_b alpha : ℝ) :
    (hard_tanh_t t lower_b upper_b).shape = t.shape ∧
    (hard_sigmoid_t t).shape = t.shape ∧
    (leaky_tanh_t t alpha).shape = t.shape ∧
    ∀ i : ℕ, ∀ h : i < t.data.length,
      (hard_tanh_t t lower_b upper_b).data.get ⟨i, by simpa [hard_tanh_t, tensorMap] using h⟩
        = hard_tanh (t.data.get ⟨i, h⟩) lower_b upper_b ∧
      (hard_sigmoid_t t).data.get ⟨i, by simpa [hard_sigmoid_t, tensorMap] using h⟩
        = hard_sigmoid (t.data.get ⟨i, h⟩) ∧
      (leaky_tanh_t t alpha).data.get ⟨i, by simpa [leaky_tanh_t, tensorMap] using h⟩
        = leaky_tanh (t.data.get ⟨i, h⟩) alpha :=
  ⟨rfl, rfl, rfl, fun _ _ => ⟨List.get_map _, List.get_map _, List.get_map _⟩⟩

/-- Witness for C4: shape preservation instantiated on the zero-element tensor
of shape `[0]`, and the index-wise property on the tensor of shape `[2]` with
entries `[2, 0]` at index `0`. -/
theorem tensor_elementwise_witness :
    (hard_tanh_t ⟨[0], []⟩ (-1) 1).shape = [0] ∧
    (hard_tanh_t ⟨[2], [2, 0]⟩ (-1) 1).data.get ⟨0, by simp [hard_tanh_t, tensorMap]⟩
      = hard_tanh 2 (-1) 1 :=
  ⟨(tensor_elementwise ⟨[0], []⟩ (-1) 1 0.2).1,
   ((tensor_elementwise ⟨[2], [2, 0]⟩ (-1) 1 0.2).2.2.2 0 (by simp)).1⟩

/-- Claim C5: `HardTanh.call` applies `hard_tanh` with the stored bounds,
`HardSigmoid.call` applies `hard_sigmoid`, both layers own zero trainable and
zero non-trainable parameters, and both `compute_output_shape` operations
return the input shape unchanged. -/
theorem layer_wrappers (l : HardTanh) (s : HardSigmoid) (t : Tensor)
    (input_shape : List ℕ) :
    l.call t = hard_tanh_t t l.lower_b l.upper_b ∧
    s.call t = hard_sigmoid_t t ∧
    l.trainable_weights = [] ∧
    l.non_trainable_weights = [] ∧
    s.trainable_weights = [] ∧
    s.non_trainable_weights = [] ∧
    l.compute_output_shape input_shape = input_shape ∧
    s.compute_output_shape input_shape = input_shape :=
  ⟨rfl, rfl, rfl, rfl, rfl, rfl, rfl, rfl⟩

/-- Claim C6: `hard_tanh` with the default bounds `[-1, 1]` is idempotent on
its own output. -/
theorem hard_tanh_idem (x : ℝ) :
    hard_tanh (hard_tanh x (-1) 1) (-1) 1 = hard_tanh x (-1) 1 := by
  have h1 : hard_tanh x (-1) 1 ≤ 1 := max_le (min_le_right x 1) (by norm_num)
  have h2 : (-1 : ℝ) ≤ hard_tanh x (-1) 1 := le_max_right _ _
  simp only [hard_tanh, clip_by_value] at h1 h2 ⊢
  rw [min_eq_left h1, max_eq_left h2]

/-- Claim C7: the five concrete evaluations from the spec. -/
theorem concrete_cases :
    hard_tanh 2 (-1) 1 = 1 ∧
    hard_tanh (-3) (-2) 2 = -2 ∧
    hard_sigmoid 10 = 1 ∧
    leaky_tanh 2 0.2 = 1.2 ∧
    leaky_tanh (-2) 0.2 = -1.2 := by
  refine ⟨?_, ?_, ?_, ?_, ?_⟩ <;>
  · simp only [hard_tanh, hard_sigmoid, leaky_tanh, clip_by_value]
    rw [min_def, max_def]
    norm_num
    try rw [min_def, max_def]
    try norm_num

/-- Claim C9: `hard_sigmoid` is exactly `hard_tanh` with bounds `[0, 1]`
applied to the shifted input `x + 0.5`. -/
theorem hard_sigmoid_eq_shifted_hard_tanh (x : ℝ) :
    hard_sigmoid x = hard_tanh (x + 0.5) 0 1 := rfl

/-- Claim C10: each of the three functions is monotone non-decreasing in its
input: `hard_tanh` for any bounds with `lower_b ≤ upper_b`, `hard_sigmoid`
unconditionally, and `leaky_tanh` whenever `alpha ≥ 0`. -/
theorem activations_monotone (x y lower_b upper_b alpha : ℝ) (hxy : x ≤ y) :
    (lower_b ≤ upper_b → hard_tanh x lower_b upper_b ≤ hard_tanh y lower_b upper_b) ∧
    hard_sigmoid x ≤ hard_sigmoid y ∧
    (0 ≤ alpha → leaky_tanh x alpha ≤ leaky_tanh y alpha) := by
  refine ⟨fun _ => ?_, ?_, fun ha => ?_⟩
  · exact max_le_max (min_le_min hxy le_rfl) le_rfl
  · exact max_le_max (min_le_min (by linarith) le_rfl) le_rfl
  · have hclip : clip_by_value x (-1) 1 ≤ clip_by_value y (-1) 1 :=
      max_le_max (min_le_min hxy le_rfl) le_rfl
    have hmax : (max x 1 - 1) * alpha ≤ (max y 1 - 1) * alpha :=
      mul_le_mul_of_nonneg_right (sub_le_sub_right (max_le_max hxy le_rfl) 1) ha
    have hmin : (min x (-1) + 1) * alpha ≤ (min y (-1) + 1) * alpha :=
      mul_le_mul_of_nonneg_right (add_le_add_right (min_le_min hxy le_rfl) 1) ha
    exact add_le_add (add_le_add hclip hmax) hmin

/-- Witness for C10 at `x = 0 ≤ y = 3`, bounds `[-1, 1]`, `alpha = 0.2`. -/
theorem activations_monotone_witness :
    hard_tanh 0 (-1) 1 ≤ hard_tanh 3 (-1) 1 ∧
    hard_sigmoid 0 ≤ hard_sigmoid 3 ∧
    leaky_tanh 0 0.2 ≤ leaky_tanh 3 0.2 :=
  ⟨(activations_monotone 0 3 (-1) 1 0.2 (by norm_num)).1 (by norm_num),
   (activations_monotone 0 3 (-1) 1 0.2 (by norm_num)).2.1,
   (activations_monotone 0 3 (-1) 1 0.2 (by norm_num)).2.2 (by norm_num)⟩
